import Mathlib

/-!
Verification development for the outlan IPAM application.

The Python source is shallowly embedded in Lean:
- strings are Lean `String`s (Python compares strings by code points, which
  matches comparing their `.data` character lists lexicographically);
- Python ints are `Int` (ids, positions, VLAN ids) or `Nat` (addresses);
- Python `sorted` (a stable sort by a key) is modelled by
  `List.insertionSort` on the translated key, which is likewise stable;
- a fallible read from the persistence layer is an `Except PyErr` value, with
  `PyErr.valueError` standing for Python ValueError and `PyErr.otherError`
  for every other exception class.
-/

namespace Outlan

/-! ### Model of Python `ipaddress` IPv4 CIDR parsing

Translated from CPython `Lib/ipaddress.py` (the library the source calls):
`IPv4Network(s, strict)` splits on a single slash, parses a dotted quad of
octets (ASCII digits only, at most 3 characters, no leading zeros, value at
most 255), and parses the suffix either as a decimal prefix length between 0
and 32 or as a dotted-quad netmask or hostmask.  In strict mode an address
with host bits set raises ValueError; with strict=False the host bits are
masked away.  A missing suffix means a /32 network.
-/

/-- Split a character list at every occurrence of `c`, Python `str.split`. -/
def splitOnChar (c : Char) : List Char → List (List Char)
  | [] => [[]]
  | x :: xs =>
    match splitOnChar c xs with
    | h :: t => if x = c then [] :: h :: t else (x :: h) :: t
    | [] => if x = c then [[], []] else [[x]]

/-- Numeric value of a list of decimal digit characters. -/
def digitsVal (cs : List Char) : Nat :=
  cs.foldl (fun a c => a * 10 + (c.toNat - 48)) 0

/-- CPython `ipaddress._parse_octet`: at most 3 ASCII digits, no leading
zero, value at most 255. -/
def parseOctet (cs : List Char) : Option Nat :=
  if cs.isEmpty then none
  else if !cs.all Char.isDigit then none
  else if cs.length > 3 then none
  else if cs.length > 1 && cs.head? == some '0' then none
  else
    let v := digitsVal cs
    if v ≤ 255 then some v else none

/-- CPython `ipaddress._ip_int_from_string`: exactly four octets joined by
dots. -/
def parseIPv4Addr (cs : List Char) : Option Nat :=
  match (splitOnChar '.' cs).mapM parseOctet with
  | some [a, b, c, d] => some (((a * 256 + b) * 256 + c) * 256 + d)
  | _ => none

/-- Netmask integer for a prefix length: `p` leading one bits. -/
def netmaskInt (p : Nat) : Nat := 2 ^ 32 - 2 ^ (32 - p)

/-- Hostmask integer for a prefix length: `32 - p` trailing one bits. -/
def hostmaskInt (p : Nat) : Nat := 2 ^ (32 - p) - 1

/-- CPython `IPv4Network._make_netmask` on a string argument: a run of ASCII
digits is a prefix length (at most 32); otherwise the argument is parsed as a
dotted quad and matched first against the netmasks, then against the
hostmasks. -/
def parsePrefixLen (cs : List Char) : Option Nat :=
  if !cs.isEmpty && cs.all Char.isDigit then
    let p := digitsVal cs
    if p ≤ 32 then some p else none
  else
    match parseIPv4Addr cs with
    | none => none
    | some m =>
      match (List.range 33).find? (fun p => m == netmaskInt p) with
      | some p => some p
      | none => (List.range 33).find? (fun p => m == hostmaskInt p)

/-- An IPv4 network value: numeric network address and prefix length. -/
structure IPv4Net where
  addr : Nat
  plen : Nat
deriving DecidableEq, Repr

/-- Python `int(address) & int(netmask)` for `address < 2 ^ 32`: clear the
low `32 - p` host bits. -/
def maskAddr (a p : Nat) : Nat := a / 2 ^ (32 - p) * 2 ^ (32 - p)

/-- CPython `IPv4Network(s, strict)`: parse the address and prefix; when the
address has host bits set, fail in strict mode and mask them otherwise.
Returns `none` where Python raises ValueError. -/
def ipNetwork (s : String) (strict : Bool) : Option IPv4Net :=
  match splitOnChar '/' s.data with
  | [a] =>
    (parseIPv4Addr a).map (fun ip => { addr := ip, plen := 32 })
  | [a, m] => do
    let ip ← parseIPv4Addr a
    let p ← parsePrefixLen m
    let masked := maskAddr ip p
    if masked = ip then pure { addr := ip, plen := p }
    else if strict then none
    else pure { addr := masked, plen := p }
  | _ => none

/-- Python `broadcast_address`: network address with all host bits set. -/
def broadcastAddr (n : IPv4Net) : Nat := n.addr + hostmaskInt n.plen

/-- CPython `_BaseNetwork.__contains__` for an address: the address masked by
the netmask equals the network address. -/
def addressInNetwork (n : IPv4Net) (a : Nat) : Bool :=
  maskAddr a n.plen == n.addr

/-- CPython `_BaseNetwork.overlaps`. -/
def overlaps (a b : IPv4Net) : Bool :=
  addressInNetwork b a.addr || addressInNetwork b (broadcastAddr a) ||
    addressInNetwork a b.addr || addressInNetwork a (broadcastAddr b)

/-- CPython `_BaseNetwork._is_subnet_of a b`. -/
def subnetOf (a b : IPv4Net) : Bool :=
  decide (b.addr ≤ a.addr) && decide (broadcastAddr a ≤ broadcastAddr b)

/-- A network value as produced by the parser: its host bits are clear. -/
abbrev IsCanonical (n : IPv4Net) : Prop := maskAddr n.addr n.plen = n.addr

theorem hostSize_pos (p : Nat) : 0 < 2 ^ (32 - p) := Nat.pos_pow_of_pos _ (by decide)

/-- Clearing the low bits of `x` yields the multiple `a` of the block size
exactly when `x` lies in the block starting at `a`. -/
theorem div_mul_interval {h a x : Nat} (hpos : 0 < h) (hc : a / h * h = a) :
    x / h * h = a ↔ a ≤ x ∧ x ≤ a + (h - 1) := by
  constructor
  · intro heq
    have h1 : x / h * h ≤ x := Nat.div_mul_le_self x h
    have h3 : h * (x / h) + x % h = x := Nat.div_add_mod x h
    rw [Nat.mul_comm] at h3
    rw [heq] at h1 h3
    obtain ⟨r, hr⟩ : ∃ r, x % h = r := ⟨_, rfl⟩
    have h2 : x % h < h := Nat.mod_lt _ hpos
    rw [hr] at h2 h3
    omega
  · intro hx
    have hlo2 : a / h * h ≤ x := by rw [hc]; exact hx.1
    have hhi3 : x < (a / h + 1) * h := by rw [Nat.succ_mul, hc]; omega
    have hdiv : x / h = a / h := Nat.div_eq_of_lt_le hlo2 hhi3
    rw [hdiv, hc]

/-- Membership in a canonical network is membership in its address interval. -/
theorem addressInNetwork_iff {n : IPv4Net} (hc : IsCanonical n) (x : Nat) :
    addressInNetwork n x = true ↔ n.addr ≤ x ∧ x ≤ broadcastAddr n := by
  have hpos : 0 < 2 ^ (32 - n.plen) := hostSize_pos n.plen
  have hc2 : n.addr / 2 ^ (32 - n.plen) * 2 ^ (32 - n.plen) = n.addr := hc
  have base := div_mul_interval (x := x) hpos hc2
  have hshow : addressInNetwork n x = (x / 2 ^ (32 - n.plen) * 2 ^ (32 - n.plen) == n.addr) := rfl
  have hb : broadcastAddr n = n.addr + (2 ^ (32 - n.plen) - 1) := rfl
  rw [hshow, beq_iff_eq, hb]
  exact base

theorem addr_le_broadcastAddr (n : IPv4Net) : n.addr ≤ broadcastAddr n :=
  Nat.le_add_right _ _

/-! ### Data model, from `src/app/models/__init__.py`

Integer columns are `Int`, the optional `vlan_id` column is `Option Int`,
the boolean `collapsed` column is `Bool`.  The `to_dict` serializations add
a `block_name` looked up through the relationship; the dict types below are
the structures those methods return.
-/

/-- Row of the `network_blocks` table. -/
structure NetworkBlock where
  id : Nat
  name : String
  position : Int
  collapsed : Bool
deriving DecidableEq, Repr

/-- Row of the `network_containers` table. -/
structure NetworkContainer where
  id : Nat
  block_id : Nat
  name : String
  base_network : String
  position : Int
deriving DecidableEq, Repr

/-- Row of the `subnets` table. -/
structure Subnet where
  id : Nat
  block_id : Nat
  name : String
  vlan_id : Option Int
  cidr : String
deriving DecidableEq, Repr

/-- Result of `NetworkBlock.to_dict`. -/
structure BlockDict where
  id : Nat
  name : String
  position : Int
  collapsed : Bool
deriving DecidableEq, Repr

/-- Result of `NetworkContainer.to_dict`. -/
structure ContainerDict where
  id : Nat
  block_id : Nat
  name : String
  base_network : String
  position : Int
  block_name : Option String
deriving DecidableEq, Repr

/-- Result of `Subnet.to_dict`. -/
structure SubnetDict where
  id : Nat
  block_id : Nat
  name : String
  vlan_id : Option Int
  cidr : String
  block_name : Option String
deriving DecidableEq, Repr

/-- A Python exception value: ValueError or any other exception class
(for instance an error raised by the persistence layer). -/
inductive PyErr where
  | valueError
  | otherError
deriving DecidableEq, Repr

deriving instance DecidableEq for Except

/-! ### Validators, from `src/app/utils/validation.py` -/

/-- Constant `MIN_VLAN_ID`. -/
def MIN_VLAN_ID : Int := 1

/-- Constant `MAX_VLAN_ID`. -/
def MAX_VLAN_ID : Int := 4094

/-- Model of `re.match` against the pattern `^` `\d+` `$` used by
`validate_vlan_id`: one or more digits anchored at the start, where the
dollar anchor matches at the end of the string or just before a single
trailing newline.  Python `\d` also covers non-ASCII decimal digits; the
model restricts to ASCII digits, which is exact on ASCII input. -/
def vlanRegexMatch (s : String) : Bool :=
  let cs := s.data
  (!cs.isEmpty && cs.all Char.isDigit) ||
    (cs.getLast? == some '\n' && !cs.dropLast.isEmpty && cs.dropLast.all Char.isDigit)

/-- Model of Python `int(s)` on a string accepted by `vlanRegexMatch`:
surrounding whitespace (here, the trailing newline the regex may have let
through) is stripped and the digits are read in base 10. -/
def vlanIntValue (s : String) : Int :=
  let cs := s.data
  let ds := if cs.getLast? == some '\n' then cs.dropLast else cs
  (digitsVal ds : Int)

/-- `validate_vlan_id` from `src/app/utils/validation.py` lines 89 to 111.
Returns `(is_valid, error_message, parsed_vlan_id)`.  An empty string is
valid with no parsed value; otherwise the input must match the digits
pattern and parse into the inclusive range `MIN_VLAN_ID` to `MAX_VLAN_ID`.
The `except ValueError` branch of the source is unreachable after the
pattern has matched. -/
def validate_vlan_id (vlan_id : String) : Bool × String × Option Int :=
  if vlan_id = "" then (true, "", none)
  else if !vlanRegexMatch vlan_id then
    (false, "VLAN ID can only contain numbers", none)
  else
    let vlan := vlanIntValue vlan_id
    if vlan < MIN_VLAN_ID || vlan > MAX_VLAN_ID then
      (false, "VLAN ID must be between 1 and 4094", none)
    else (true, "", some vlan)

/-- `validate_cidr_format` from `src/app/utils/validation.py` lines 114 to
135: reject the empty string and strings without a slash, then parse with
`IPv4Network(cidr, strict=False)`.  The dynamic part of the failure message
is dropped. -/
def validate_cidr_format (cidr : String) : Bool × String :=
  if cidr = "" then (false, "CIDR cannot be empty")
  else if !cidr.data.contains '/' then
    (false, "CIDR must include subnet mask (e.g., 192.168.1.0/24)")
  else
    match ipNetwork cidr false with
    | some _ => (true, "")
    | none => (false, "Invalid CIDR format")

/-! ### Conflict detectors, from `src/app/utils/validation.py`

Each checker reads the persistence layer inside a `try` block; the read is
passed in as an `Except PyErr` value.  `check_duplicate_block_name` and
`check_duplicate_vlan_in_block` catch every exception (`except Exception`),
so they are total; the two overlap checkers catch only ValueError
(`except ValueError`), so any other exception escapes, which the `Except`
result records.
-/

/-- Exclusion test `exclude_id is None or record.id != exclude_id`. -/
def notExcluded (exclude_id : Option Nat) (recId : Nat) : Bool :=
  match exclude_id with
  | none => true
  | some e => recId != e

/-- `check_duplicate_block_name` lines 138 to 159: `get_block_by_name` is the
fetched value; any exception yields `(False, None)`. -/
def check_duplicate_block_name (name : String) (exclude_id : Option Nat)
    (fetched : Except PyErr (Option NetworkBlock)) : Bool × Option NetworkBlock :=
  match fetched with
  | .error _ => (false, none)
  | .ok existing_block =>
    match existing_block with
    | some b => if notExcluded exclude_id b.id then (true, some b) else (false, none)
    | none => (false, none)

/-- Scan loop of `check_duplicate_vlan_in_block`: first subnet of the block
with the same VLAN id, the excluded id skipped. -/
def vlanScan (vlan_id : Int) (block_id : Nat) (exclude_id : Option Nat) :
    List Subnet → Bool × Option Subnet
  | [] => (false, none)
  | s :: rest =>
    if s.block_id == block_id && s.vlan_id == some vlan_id && notExcluded exclude_id s.id then
      (true, some s)
    else vlanScan vlan_id block_id exclude_id rest

/-- `check_duplicate_vlan_in_block` lines 162 to 198: a `None` VLAN id is
never a duplicate (returned before the persistence read); any exception
yields `(False, None)`. -/
def check_duplicate_vlan_in_block (vlan_id : Option Int) (block_id : Nat)
    (exclude_id : Option Nat) (fetched : Except PyErr (List Subnet)) : Bool × Option Subnet :=
  match vlan_id with
  | none => (false, none)
  | some v =>
    match fetched with
    | .error _ => (false, none)
    | .ok subnets => vlanScan v block_id exclude_id subnets

/-- Scan loop of `check_overlapping_cidr_in_block`: first subnet of the block
whose stored cidr parses strictly and overlaps the candidate; a stored cidr
that fails to parse is skipped (`except ValueError: continue`). -/
def overlapScan (new_net : IPv4Net) (block_id : Nat) (exclude_id : Option Nat) :
    List Subnet → Bool × Option Subnet
  | [] => (false, none)
  | s :: rest =>
    if s.block_id == block_id && notExcluded exclude_id s.id then
      match ipNetwork s.cidr true with
      | some existing_net =>
        if overlaps new_net existing_net then (true, some s)
        else overlapScan new_net block_id exclude_id rest
      | none => overlapScan new_net block_id exclude_id rest
    else overlapScan new_net block_id exclude_id rest

/-- `check_overlapping_cidr_in_block` lines 201 to 236: the candidate is
parsed with `IPv4Network(cidr)` in strict mode, a ValueError from it or from
anywhere in the `try` block yields `(False, None)`, and every other
exception propagates. -/
def check_overlapping_cidr_in_block (cidr : String) (block_id : Nat)
    (exclude_id : Option Nat) (fetched : Except PyErr (List Subnet)) :
    Except PyErr (Bool × Option Subnet) :=
  match ipNetwork cidr true with
  | none => .ok (false, none)
  | some new_net =>
    match fetched with
    | .error .valueError => .ok (false, none)
    | .error e => .error e
    | .ok subnets => .ok (overlapScan new_net block_id exclude_id subnets)

/-- Scan loop of `check_overlapping_container_networks`. -/
def containerOverlapScan (new_net : IPv4Net) (block_id : Nat) (exclude_id : Option Nat) :
    List NetworkContainer → Bool × Option NetworkContainer
  | [] => (false, none)
  | c :: rest =>
    if c.block_id == block_id && notExcluded exclude_id c.id then
      match ipNetwork c.base_network true with
      | some existing_net =>
        if overlaps new_net existing_net then (true, some c)
        else containerOverlapScan new_net block_id exclude_id rest
      | none => containerOverlapScan new_net block_id exclude_id rest
    else containerOverlapScan new_net block_id exclude_id rest

/-- `check_overlapping_container_networks` lines 239 to 274: the same
algorithm as the subnet overlap check, over containers, with the same
`except ValueError` handling. -/
def check_overlapping_container_networks (base_network : String) (block_id : Nat)
    (exclude_id : Option Nat) (fetched : Except PyErr (List NetworkContainer)) :
    Except PyErr (Bool × Option NetworkContainer) :=
  match ipNetwork base_network true with
  | none => .ok (false, none)
  | some new_net =>
    match fetched with
    | .error .valueError => .ok (false, none)
    | .error e => .error e
    | .ok containers => .ok (containerOverlapScan new_net block_id exclude_id containers)

/-- Conflict gate of `_check_subnet_conflicts` in
`src/app/blueprints/ipam/helpers.py` lines 159 to 197, reduced to whether a
conflict response is produced: a truthy VLAN id that duplicates one in the
block, or an overlapping CIDR in the block.  The two persistence reads are
the same fetched subnet list. -/
def check_subnet_conflicts (cidr : String) (vlan_id : Option Int) (block_id : Nat)
    (fetched : Except PyErr (List Subnet)) : Except PyErr Bool :=
  let vlanTruthy := match vlan_id with
    | some v => v != 0
    | none => false
  if vlanTruthy && (check_duplicate_vlan_in_block vlan_id block_id none fetched).1 then
    .ok true
  else
    (check_overlapping_cidr_in_block cidr block_id none fetched).map (·.1)

/-! ### Network sorters, from `src/app/utils/__init__.py` lines 16 to 113

Python `sorted(subnets, key=k)` is a stable sort by `k` under tuple
comparison; it is modelled by `List.insertionSort` (also stable) on a
lexicographic key.  `float("inf")` used for an unparseable cidr or a null
VLAN id is the `⊤` of a `WithTop` component, and a lowercased name key is
the code-point list of the lowercased string.
-/

/-- Python `str.lower` on the characters of a string (ASCII case mapping). -/
def lowerData (s : String) : List Char := s.data.map Char.toLower

/-- Key of `sort_networks_by_ip.get_network_key`:
`(block_id, network_address, prefixlen)`, with `(inf, 0)` for an invalid
cidr. -/
def ipSortKey (s : Subnet) : Lex (Nat × Lex (WithTop Nat × Nat)) :=
  match ipNetwork s.cidr false with
  | some network => toLex (s.block_id, toLex ((network.addr : WithTop Nat), network.plen))
  | none => toLex (s.block_id, toLex ((⊤ : WithTop Nat), 0))

/-- `sort_networks_by_ip`. -/
def sort_networks_by_ip (subnets : List Subnet) : List Subnet :=
  subnets.insertionSort (fun a b => ipSortKey a ≤ ipSortKey b)

/-- Key of `sort_networks_by_vlan_with_network.get_vlan_network_key`:
`(block_id, vlan_id, network_address, prefixlen)`.  In the parseable branch
a `None` VLAN id becomes infinity; in the invalid-cidr branch the source
computes `subnet.vlan_id or float("inf")`, so a VLAN id of `0` (falsy in
Python) also becomes infinity there. -/
def vlanSortKey (s : Subnet) : Lex (Nat × Lex (WithTop Int × Lex (WithTop Nat × Nat))) :=
  match ipNetwork s.cidr false with
  | some network =>
    let vlan : WithTop Int := match s.vlan_id with
      | some v => (v : WithTop Int)
      | none => ⊤
    toLex (s.block_id, toLex (vlan, toLex ((network.addr : WithTop Nat), network.plen)))
  | none =>
    let vlan : WithTop Int := match s.vlan_id with
      | some v => if v = 0 then ⊤ else (v : WithTop Int)
      | none => ⊤
    toLex (s.block_id, toLex (vlan, toLex ((⊤ : WithTop Nat), 0)))

/-- `sort_networks_by_vlan_with_network`. -/
def sort_networks_by_vlan_with_network (subnets : List Subnet) : List Subnet :=
  subnets.insertionSort (fun a b => vlanSortKey a ≤ vlanSortKey b)

/-- Key of `sort_networks_by_name_with_network.get_name_network_key`:
`(block_id, name.lower(), network_address, prefixlen)`. -/
def nameSortKey (s : Subnet) : Lex (Nat × Lex (List Char × Lex (WithTop Nat × Nat))) :=
  match ipNetwork s.cidr false with
  | some network =>
    toLex (s.block_id, toLex (lowerData s.name, toLex ((network.addr : WithTop Nat), network.plen)))
  | none => toLex (s.block_id, toLex (lowerData s.name, toLex ((⊤ : WithTop Nat), 0)))

/-- `sort_networks_by_name_with_network`. -/
def sort_networks_by_name_with_network (subnets : List Subnet) : List Subnet :=
  subnets.insertionSort (fun a b => nameSortKey a ≤ nameSortKey b)

/-! ### DatabaseService, from `src/app/utils/__init__.py`

The stored entity state is the three tables; each query method is a function
of it.  SQL `ORDER BY` on text columns compares by bytes, which on UTF-8 is
code-point order, the order of the `.data` lists.
-/

/-- The stored entity state: the three entity tables. -/
structure DBState where
  blocks : List NetworkBlock
  containers : List NetworkContainer
  subnets : List Subnet
deriving DecidableEq, Repr

/-- `get_all_blocks`: `ORDER BY position, name`. -/
def get_all_blocks (st : DBState) : List NetworkBlock :=
  st.blocks.insertionSort (fun a b =>
    toLex (a.position, a.name.data) ≤ toLex (b.position, b.name.data))

/-- Lookup of a block row by id (the foreign-key relationship). -/
def findBlock (st : DBState) (block_id : Nat) : Option NetworkBlock :=
  st.blocks.find? (fun b => b.id == block_id)

/-- `get_all_containers`: inner join with `network_blocks` (a container whose
block row is missing is dropped by the join), `ORDER BY` block position,
container position, container name. -/
def get_all_containers (st : DBState) : List NetworkContainer :=
  ((st.containers.filterMap (fun c => (findBlock st c.block_id).map (fun b => (c, b))))
    |>.insertionSort (fun x y =>
      toLex (x.2.position, toLex (x.1.position, x.1.name.data)) ≤
        toLex (y.2.position, toLex (y.1.position, y.1.name.data)))).map (·.1)

/-- `get_all_subnets`: dispatch on the configured `DEFAULT_SORT` value; the
fallback branch is `ORDER BY block_id, cidr` (text order on cidr). -/
def get_all_subnets (sort_field : String) (st : DBState) : List Subnet :=
  if sort_field = "Network" then sort_networks_by_ip st.subnets
  else if sort_field = "VLAN" then sort_networks_by_vlan_with_network st.subnets
  else if sort_field = "Name" then sort_networks_by_name_with_network st.subnets
  else st.subnets.insertionSort (fun a b =>
    toLex (a.block_id, a.cidr.data) ≤ toLex (b.block_id, b.cidr.data))

/-- `NetworkBlock.to_dict`. -/
def blockToDict (b : NetworkBlock) : BlockDict :=
  { id := b.id, name := b.name, position := b.position, collapsed := b.collapsed }

/-- `NetworkContainer.to_dict` (`block_name` through the relationship). -/
def containerToDict (st : DBState) (c : NetworkContainer) : ContainerDict :=
  { id := c.id, block_id := c.block_id, name := c.name, base_network := c.base_network,
    position := c.position, block_name := (findBlock st c.block_id).map (·.name) }

/-- `Subnet.to_dict` (`block_name` through the relationship). -/
def subnetToDict (st : DBState) (s : Subnet) : SubnetDict :=
  { id := s.id, block_id := s.block_id, name := s.name, vlan_id := s.vlan_id,
    cidr := s.cidr, block_name := (findBlock st s.block_id).map (·.name) }

/-- The export payload `{"blocks": ..., "containers": ..., "subnets": ...}`. -/
structure ExportData where
  blocks : List BlockDict
  containers : List ContainerDict
  subnets : List SubnetDict
deriving DecidableEq, Repr

/-- `DatabaseService.export_all_data` lines 460 to 469, parameterized by the
configured sort field read by `get_all_subnets`. -/
def export_all_data (sort_field : String) (st : DBState) : ExportData :=
  { blocks := (get_all_blocks st).map blockToDict,
    containers := (get_all_containers st).map (containerToDict st),
    subnets := (get_all_subnets sort_field st).map (subnetToDict st) }

/-- Row constructed by `import_data` from an exported block dict. -/
def dictToBlock (d : BlockDict) : NetworkBlock :=
  { id := d.id, name := d.name, position := d.position, collapsed := d.collapsed }

/-- Row constructed by `import_data` from an exported container dict. -/
def dictToContainer (d : ContainerDict) : NetworkContainer :=
  { id := d.id, block_id := d.block_id, name := d.name,
    base_network := d.base_network, position := d.position }

/-- Row constructed by `import_data` from an exported subnet dict. -/
def dictToSubnet (d : SubnetDict) : Subnet :=
  { id := d.id, block_id := d.block_id, name := d.name,
    vlan_id := d.vlan_id, cidr := d.cidr }

/-- The state `import_data` builds when every step succeeds: exactly the
supplied rows, ids included. -/
def importedState (data : ExportData) : DBState :=
  { blocks := data.blocks.map dictToBlock,
    containers := data.containers.map dictToContainer,
    subnets := data.subnets.map dictToSubnet }

/-! ### `DatabaseService.import_data`, lines 472 to 527

The SQLAlchemy session is a transaction: `committed` is what the database
durably holds and `pending` is the working state the deletes and adds
mutate.  `commit` publishes the pending state, `rollback` (the `except`
handler) discards it.  `import_data` runs three bulk deletes, one add per
supplied row, then a final commit.  An exception raised at any of these
operations is modelled by `failAt : Option Nat`, the number of operations
that complete before one raises; the handler rolls back and returns
`False`. -/

structure Session where
  committed : DBState
  pending : DBState
deriving DecidableEq, Repr

/-- One operation of the `import_data` body. -/
inductive ImportStep where
  | delSubnets
  | delContainers
  | delBlocks
  | addBlock (b : BlockDict)
  | addContainer (c : ContainerDict)
  | addSubnet (s : SubnetDict)
deriving DecidableEq, Repr

/-- Effect of one operation on the pending state. -/
def applyStep : ImportStep → DBState → DBState
  | .delSubnets, st => { st with subnets := [] }
  | .delContainers, st => { st with containers := [] }
  | .delBlocks, st => { st with blocks := [] }
  | .addBlock b, st => { st with blocks := st.blocks ++ [dictToBlock b] }
  | .addContainer c, st => { st with containers := st.containers ++ [dictToContainer c] }
  | .addSubnet s, st => { st with subnets := st.subnets ++ [dictToSubnet s] }

/-- The operation sequence of `import_data` for a given payload: the three
`query.delete()` calls, then every `db.session.add`. -/
def importSteps (data : ExportData) : List ImportStep :=
  [.delSubnets, .delContainers, .delBlocks]
    ++ data.blocks.map ImportStep.addBlock
    ++ data.containers.map ImportStep.addContainer
    ++ data.subnets.map ImportStep.addSubnet

/-- Run the operations; `failAt = some k` raises at the k-th remaining
operation (the final commit included), triggering `db.session.rollback()`.
When all operations and the commit succeed the pending state is committed. -/
def runImportSteps : List ImportStep → Session → Option Nat → Bool × Session
  | _, sess, some 0 => (false, { sess with pending := sess.committed })
  | [], sess, _ => (true, { committed := sess.pending, pending := sess.pending })
  | step :: rest, sess, failAt =>
    runImportSteps rest { sess with pending := applyStep step sess.pending }
      (failAt.map (· - 1))

/-- `DatabaseService.import_data`: the observable result is the success flag
and the durably stored state. -/
def import_data (st : DBState) (data : ExportData) (failAt : Option Nat) : Bool × DBState :=
  let r := runImportSteps (importSteps data) { committed := st, pending := st } failAt
  (r.1, r.2.committed)

/-! ### Hierarchy composer, from `src/app/blueprints/main_routes.py`
lines 122 to 181 (route `index`)

Per block: every container whose base network parses becomes a top-level
entry listing the block subnets contained in it; every subnet contained in
no container (or with an unparseable cidr) is an orphaned top-level entry.
The combined list is sorted by the parsed network, comparing network
address then netmask, an unparseable cidr counting as `255.255.255.255/32`. -/

inductive HierEntry where
  | containerEntry (c : ContainerDict) (subs : List SubnetDict) (net : IPv4Net)
  | subnetEntry (s : SubnetDict) (net : Option IPv4Net)
deriving DecidableEq, Repr

/-- Sort key of an entry: `(network_address, netmask)` of its `sort_key`
network, `ipaddress.ip_network` ordering; a falsy (`None`) key is replaced
by `255.255.255.255/32`. -/
def entrySortKey : HierEntry → Lex (Nat × Nat)
  | .containerEntry _ _ n => toLex (n.addr, netmaskInt n.plen)
  | .subnetEntry _ (some n) => toLex (n.addr, netmaskInt n.plen)
  | .subnetEntry _ none => toLex (4294967295, 4294967295)

/-- Subnets of the block placed under one container entry: those whose cidr
parses and is a subnet of the container network (`subnet_net.subnet_of`). -/
def containedSubnets (container_net : IPv4Net) (block_subnets : List SubnetDict) :
    List SubnetDict :=
  block_subnets.filter (fun sd =>
    match ipNetwork sd.cidr false with
    | some subnet_net => subnetOf subnet_net container_net
    | none => false)

/-- Orphan test of the second loop: the subnet parses and no parseable
container of the block contains it. -/
def isOrphanIn (block_containers : List ContainerDict) (subnet_net : IPv4Net) : Bool :=
  block_containers.all (fun c =>
    match ipNetwork c.base_network false with
    | some container_net => !subnetOf subnet_net container_net
    | none => true)

/-- The hierarchical structure built for one block. -/
def hierarchicalNetworks (block_containers : List ContainerDict)
    (block_subnets : List SubnetDict) : List HierEntry :=
  let containerEntries := block_containers.filterMap (fun c =>
    (ipNetwork c.base_network false).map (fun container_net =>
      HierEntry.containerEntry c (containedSubnets container_net block_subnets) container_net))
  let orphanEntries := block_subnets.filterMap (fun sd =>
    match ipNetwork sd.cidr false with
    | some subnet_net =>
      if isOrphanIn block_containers subnet_net then
        some (HierEntry.subnetEntry sd (some subnet_net))
      else none
    | none => some (HierEntry.subnetEntry sd none))
  (containerEntries ++ orphanEntries).insertionSort
    (fun a b => entrySortKey a ≤ entrySortKey b)

/-! ### Theorems -/

/-- C4: the CIDR overlap test of the conflict detector is symmetric; two
identical CIDRs always overlap; a CIDR overlaps itself and any of its
sub-ranges; and two CIDRs with disjoint address ranges never overlap.  The
hypotheses say the two networks are in the canonical form the parser
produces (host bits clear). -/
theorem c4_overlap_algebra (a b : IPv4Net) (hca : IsCanonical a) (hcb : IsCanonical b) :
    overlaps a b = overlaps b a ∧
    overlaps a a = true ∧
    (a = b → overlaps a b = true) ∧
    (subnetOf b a = true → overlaps a b = true) ∧
    ((broadcastAddr a < b.addr ∨ broadcastAddr b < a.addr) → overlaps a b = false) := by
  have hia := addressInNetwork_iff hca
  have hib := addressInNetwork_iff hcb
  have hba := addr_le_broadcastAddr a
  have hbb := addr_le_broadcastAddr b
  have hself : addressInNetwork a a.addr = true := (hia a.addr).mpr ⟨le_refl _, hba⟩
  refine ⟨?_, ?_, ?_, ?_, ?_⟩
  · simp only [overlaps]
    cases h1 : addressInNetwork b a.addr <;>
      cases h2 : addressInNetwork b (broadcastAddr a) <;>
      cases h3 : addressInNetwork a b.addr <;>
      cases h4 : addressInNetwork a (broadcastAddr b) <;> simp
  · simp [overlaps, hself]
  · intro h
    subst h
    simp [overlaps, hself]
  · intro hsub
    have hs : a.addr ≤ b.addr ∧ broadcastAddr b ≤ broadcastAddr a := by
      simpa [subnetOf] using hsub
    have h3 : addressInNetwork a b.addr = true := (hia b.addr).mpr ⟨hs.1, le_trans hbb hs.2⟩
    simp [overlaps, h3]
  · intro hdisj
    have e1 : addressInNetwork b a.addr = false := by
      rw [Bool.eq_false_iff]
      intro hmem
      rw [hib a.addr] at hmem
      rcases hdisj with h | h <;> omega
    have e2 : addressInNetwork b (broadcastAddr a) = false := by
      rw [Bool.eq_false_iff]
      intro hmem
      rw [hib (broadcastAddr a)] at hmem
      rcases hdisj with h | h <;> omega
    have e3 : addressInNetwork a b.addr = false := by
      rw [Bool.eq_false_iff]
      intro hmem
      rw [hia b.addr] at hmem
      rcases hdisj with h | h <;> omega
    have e4 : addressInNetwork a (broadcastAddr b) = false := by
      rw [Bool.eq_false_iff]
      intro hmem
      rw [hia (broadcastAddr b)] at hmem
      rcases hdisj with h | h <;> omega
    simp [overlaps, e1, e2, e3, e4]

/-- Witness for C4 at `10.0.0.0/24` and `10.0.0.128/25`. -/
theorem c4_overlap_algebra_witness :
    (IsCanonical ⟨167772160, 24⟩ ∧ IsCanonical ⟨167772288, 25⟩) ∧
    (overlaps ⟨167772160, 24⟩ ⟨167772288, 25⟩ = overlaps ⟨167772288, 25⟩ ⟨167772160, 24⟩ ∧
     overlaps ⟨167772160, 24⟩ ⟨167772160, 24⟩ = true ∧
     ((⟨167772160, 24⟩ : IPv4Net) = ⟨167772288, 25⟩ → overlaps ⟨167772160, 24⟩ ⟨167772288, 25⟩ = true) ∧
     (subnetOf ⟨167772288, 25⟩ ⟨167772160, 24⟩ = true → overlaps ⟨167772160, 24⟩ ⟨167772288, 25⟩ = true) ∧
     ((broadcastAddr ⟨167772160, 24⟩ < 167772288 ∨ broadcastAddr ⟨167772288, 25⟩ < 167772160) →
       overlaps ⟨167772160, 24⟩ ⟨167772288, 25⟩ = false)) :=
  ⟨⟨by decide, by decide⟩, c4_overlap_algebra ⟨167772160, 24⟩ ⟨167772288, 25⟩ (by decide) (by decide)⟩

/-- C6: `validate_vlan_id` accepts the string of the three digits `100`
followed by one newline, because the regex dollar anchor matches before a
trailing newline and `int` strips it — even though the string is not
digit-only.  The claim (and the comment in the source) say such input is
rejected. -/
theorem c6_trailing_newline_accepted :
    validate_vlan_id "100\n" = (true, "", some 100) ∧
    ("100\n".data.all Char.isDigit = false) ∧
    validate_vlan_id "+100" = (false, "VLAN ID can only contain numbers", none) ∧
    validate_vlan_id "100 " = (false, "VLAN ID can only contain numbers", none) ∧
    validate_vlan_id "" = (true, "", none) ∧
    validate_vlan_id "0" = (false, "VLAN ID must be between 1 and 4094", none) ∧
    validate_vlan_id "4095" = (false, "VLAN ID must be between 1 and 4094", none) ∧
    validate_vlan_id "4094" = (true, "", some 4094) := by
  decide

/-- C7: a null VLAN id is never reported as a duplicate, whatever the block,
the exclusion and the persistence read (even a failing one). -/
theorem c7_null_vlan_never_duplicate (block_id : Nat) (exclude_id : Option Nat)
    (fetched : Except PyErr (List Subnet)) :
    check_duplicate_vlan_in_block none block_id exclude_id fetched = (false, none) := rfl

/-- Sorting by a key into a linear order is idempotent. -/
theorem insertionSort_key_idem {α : Type} {κ : Type} [LinearOrder κ] (key : α → κ)
    (l : List α) :
    (l.insertionSort (fun a b => key a ≤ key b)).insertionSort (fun a b => key a ≤ key b)
      = l.insertionSort (fun a b => key a ≤ key b) := by
  haveI : IsTotal α (fun a b => key a ≤ key b) := ⟨fun a b => le_total (key a) (key b)⟩
  haveI : IsTrans α (fun a b => key a ≤ key b) := ⟨fun _ _ _ hab hbc => le_trans hab hbc⟩
  exact List.Sorted.insertionSort_eq (List.sorted_insertionSort _ l)

/-- C9: each of the three network sort functions is idempotent. -/
theorem c9_sorts_idempotent (l : List Subnet) :
    sort_networks_by_ip (sort_networks_by_ip l) = sort_networks_by_ip l ∧
    sort_networks_by_vlan_with_network (sort_networks_by_vlan_with_network l)
      = sort_networks_by_vlan_with_network l ∧
    sort_networks_by_name_with_network (sort_networks_by_name_with_network l)
      = sort_networks_by_name_with_network l :=
  ⟨insertionSort_key_idem ipSortKey l, insertionSort_key_idem vlanSortKey l,
    insertionSort_key_idem nameSortKey l⟩

/-- The ordering stated by the spec for the by-address sort: primarily by
block id ascending; within a block, parseable records by (numeric network
address, prefix length) ascending; records whose cidr fails to parse after
every parseable record of their block. -/
def specAddrOrder (a b : Subnet) : Prop :=
  a.block_id < b.block_id ∨ (a.block_id = b.block_id ∧
    match ipNetwork a.cidr false, ipNetwork b.cidr false with
    | some na, some nb => na.addr < nb.addr ∨ (na.addr = nb.addr ∧ na.plen ≤ nb.plen)
    | some _, none => True
    | none, some _ => False
    | none, none => True)

/-- The key order of `sort_networks_by_ip` implies the spec order. -/
theorem specAddrOrder_of_key_le {a b : Subnet} (h : ipSortKey a ≤ ipSortKey b) :
    specAddrOrder a b := by
  unfold ipSortKey at h
  unfold specAddrOrder
  cases hpa : ipNetwork a.cidr false <;> cases hpb : ipNetwork b.cidr false <;>
    rw [hpa, hpb] at h <;> rw [Prod.Lex.le_iff] at h
  · rcases h with h | ⟨h1, _⟩
    · exact Or.inl h
    · exact Or.inr ⟨h1, trivial⟩
  · rcases h with h | ⟨h1, h2⟩
    · exact Or.inl h
    · rw [Prod.Lex.le_iff] at h2
      rcases h2 with h2 | ⟨h2, _⟩
      · exact absurd h2 (by simp)
      · exact absurd h2 (by simp)
  · rcases h with h | ⟨h1, _⟩
    · exact Or.inl h
    · exact Or.inr ⟨h1, trivial⟩
  · rcases h with h | ⟨h1, h2⟩
    · exact Or.inl h
    · refine Or.inr ⟨h1, ?_⟩
      rw [Prod.Lex.le_iff] at h2
      rcases h2 with h2 | ⟨h2, h3⟩
      · exact Or.inl (WithTop.coe_lt_coe.mp h2)
      · exact Or.inr ⟨WithTop.coe_eq_coe.mp h2, h3⟩

/-- C8: `sort_networks_by_ip` permutes its input into the spec order —
block id ascending, then (network address, prefix length) ascending with
unparseable cidrs last in their block — and sorts the concrete example
`[10.0.10.0/24, 10.0.1.0/24, 10.0.2.0/24]` of one block into
`[10.0.1.0/24, 10.0.2.0/24, 10.0.10.0/24]`. -/
theorem c8_sort_by_ip (l : List Subnet) :
    (sort_networks_by_ip l).Perm l ∧
    (sort_networks_by_ip l).Pairwise specAddrOrder ∧
    sort_networks_by_ip
        [⟨1, 1, "a", none, "10.0.10.0/24"⟩, ⟨2, 1, "b", none, "10.0.1.0/24"⟩,
         ⟨3, 1, "c", none, "10.0.2.0/24"⟩]
      = [⟨2, 1, "b", none, "10.0.1.0/24"⟩, ⟨3, 1, "c", none, "10.0.2.0/24"⟩,
         ⟨1, 1, "a", none, "10.0.10.0/24"⟩] := by
  refine ⟨List.perm_insertionSort _ l, ?_, by decide⟩
  haveI : IsTotal Subnet (fun a b => ipSortKey a ≤ ipSortKey b) :=
    ⟨fun a b => le_total (ipSortKey a) (ipSortKey b)⟩
  haveI : IsTrans Subnet (fun a b => ipSortKey a ≤ ipSortKey b) :=
    ⟨fun _ _ _ hab hbc => le_trans hab hbc⟩
  exact (List.sorted_insertionSort _ l).imp (fun h => specAddrOrder_of_key_le h)

theorem dictToBlock_blockToDict (b : NetworkBlock) : dictToBlock (blockToDict b) = b := rfl

theorem dictToContainer_containerToDict (st : DBState) (c : NetworkContainer) :
    dictToContainer (containerToDict st c) = c := rfl

theorem dictToSubnet_subnetToDict (st : DBState) (s : Subnet) :
    dictToSubnet (subnetToDict st s) = s := rfl

/-- When every container of the list finds its block row, the inner join
keeps every container. -/
theorem join_map_fst (st : DBState) (l : List NetworkContainer)
    (h : ∀ c ∈ l, (findBlock st c.block_id).isSome) :
    (l.filterMap (fun c => (findBlock st c.block_id).map (fun b => (c, b)))).map Prod.fst
      = l := by
  induction l with
  | nil => rfl
  | cons c t ih =>
    have hc := h c (List.mem_cons_self _ _)
    obtain ⟨b, hb⟩ := Option.isSome_iff_exists.mp hc
    simp only [List.filterMap_cons, hb, Option.map_some, List.map_cons]
    exact congrArg (c :: ·) (ih (fun x hx => h x (List.mem_cons_of_mem _ hx)))

/-- C2: exporting the stored state and importing that very export leaves the
three entity sets equal up to order, every field of every row preserved
exactly (the hypothesis is the foreign-key integrity of the stored
containers, which the schema enforces).  This holds for every configured
sort field. -/
theorem c2_export_import_roundtrip (sort_field : String) (st : DBState)
    (h : ∀ c ∈ st.containers, ∃ b ∈ st.blocks, b.id = c.block_id) :
    (importedState (export_all_data sort_field st)).blocks.Perm st.blocks ∧
    (importedState (export_all_data sort_field st)).containers.Perm st.containers ∧
    (importedState (export_all_data sort_field st)).subnets.Perm st.subnets := by
  have h2 : ∀ c ∈ st.containers, (findBlock st c.block_id).isSome := by
    intro c hc
    obtain ⟨b, hbmem, hbid⟩ := h c hc
    show (st.blocks.find? (fun b => b.id == c.block_id)).isSome
    rw [List.find?_isSome]
    exact ⟨b, hbmem, by simp [hbid]⟩
  refine ⟨?_, ?_, ?_⟩
  · show ((get_all_blocks st).map blockToDict).map dictToBlock |>.Perm st.blocks
    rw [List.map_map, show dictToBlock ∘ blockToDict = id from funext (fun _ => rfl),
      List.map_id]
    exact List.perm_insertionSort _ _
  · show ((get_all_containers st).map (containerToDict st)).map dictToContainer
      |>.Perm st.containers
    rw [List.map_map,
      show dictToContainer ∘ containerToDict st = id from funext (fun _ => rfl),
      List.map_id]
    unfold get_all_containers
    have hperm := List.perm_insertionSort
      (fun x y : NetworkContainer × NetworkBlock =>
        toLex (x.2.position, toLex (x.1.position, x.1.name.data)) ≤
          toLex (y.2.position, toLex (y.1.position, y.1.name.data)))
      (st.containers.filterMap (fun c => (findBlock st c.block_id).map (fun b => (c, b))))
    have := hperm.map Prod.fst
    rwa [join_map_fst st st.containers h2] at this
  · show ((get_all_subnets sort_field st).map (subnetToDict st)).map dictToSubnet
      |>.Perm st.subnets
    rw [List.map_map,
      show dictToSubnet ∘ subnetToDict st = id from funext (fun _ => rfl), List.map_id]
    unfold get_all_subnets
    split
    · exact List.perm_insertionSort _ _
    · split
      · exact List.perm_insertionSort _ _
      · split
        · exact List.perm_insertionSort _ _
        · exact List.perm_insertionSort _ _

/-- Witness for C2 on a one-block, one-container, two-subnet state. -/
theorem c2_export_import_roundtrip_witness :
    (∀ c ∈ (DBState.mk [⟨1, "Production", 1, false⟩]
        [⟨1, 1, "segment", "10.0.0.0/16", 1⟩]
        [⟨1, 1, "web", some 100, "10.0.1.0/24"⟩, ⟨2, 1, "db", none, "10.0.2.0/24"⟩]).containers,
      ∃ b ∈ (DBState.mk [⟨1, "Production", 1, false⟩]
        [⟨1, 1, "segment", "10.0.0.0/16", 1⟩]
        [⟨1, 1, "web", some 100, "10.0.1.0/24"⟩, ⟨2, 1, "db", none, "10.0.2.0/24"⟩]).blocks,
        b.id = c.block_id) ∧
    ((importedState (export_all_data "Network" (DBState.mk [⟨1, "Production", 1, false⟩]
        [⟨1, 1, "segment", "10.0.0.0/16", 1⟩]
        [⟨1, 1, "web", some 100, "10.0.1.0/24"⟩, ⟨2, 1, "db", none, "10.0.2.0/24"⟩]))).blocks.Perm
          [⟨1, "Production", 1, false⟩] ∧
     (importedState (export_all_data "Network" (DBState.mk [⟨1, "Production", 1, false⟩]
        [⟨1, 1, "segment", "10.0.0.0/16", 1⟩]
        [⟨1, 1, "web", some 100, "10.0.1.0/24"⟩, ⟨2, 1, "db", none, "10.0.2.0/24"⟩]))).containers.Perm
          [⟨1, 1, "segment", "10.0.0.0/16", 1⟩] ∧
     (importedState (export_all_data "Network" (DBState.mk [⟨1, "Production", 1, false⟩]
        [⟨1, 1, "segment", "10.0.0.0/16", 1⟩]
        [⟨1, 1, "web", some 100, "10.0.1.0/24"⟩, ⟨2, 1, "db", none, "10.0.2.0/24"⟩]))).subnets.Perm
          [⟨1, 1, "web", some 100, "10.0.1.0/24"⟩, ⟨2, 1, "db", none, "10.0.2.0/24"⟩]) :=
  ⟨by decide, c2_export_import_roundtrip "Network" _ (by decide)⟩

/-- Either every operation and the final commit succeed and the folded
pending state is committed, or an exception is raised and the rollback
leaves the committed state untouched. -/
theorem runImportSteps_cases (steps : List ImportStep) (sess : Session)
    (failAt : Option Nat) :
    runImportSteps steps sess failAt
        = (true, { committed := steps.foldl (fun s p => applyStep p s) sess.pending,
                   pending := steps.foldl (fun s p => applyStep p s) sess.pending }) ∨
    runImportSteps steps sess failAt
        = (false, { committed := sess.committed, pending := sess.committed }) := by
  induction steps generalizing sess failAt with
  | nil =>
    match failAt with
    | some 0 => exact Or.inr rfl
    | some (k + 1) => exact Or.inl rfl
    | none => exact Or.inl rfl
  | cons p t ih =>
    match failAt with
    | some 0 => exact Or.inr rfl
    | some (k + 1) =>
      have h := ih { sess with pending := applyStep p sess.pending } (some k)
      simpa [runImportSteps] using h
    | none =>
      have h := ih { sess with pending := applyStep p sess.pending } none
      simpa [runImportSteps] using h

/-- With no exception every operation runs and the commit publishes the
folded pending state. -/
theorem runImportSteps_none (steps : List ImportStep) (sess : Session) :
    runImportSteps steps sess none
      = (true, { committed := steps.foldl (fun s p => applyStep p s) sess.pending,
                 pending := steps.foldl (fun s p => applyStep p s) sess.pending }) := by
  induction steps generalizing sess with
  | nil => rfl
  | cons p t ih => simpa [runImportSteps] using ih { sess with pending := applyStep p sess.pending }

theorem foldl_addBlocks (bs : List BlockDict) (st : DBState) :
    (bs.map ImportStep.addBlock).foldl (fun s p => applyStep p s) st
      = { st with blocks := st.blocks ++ bs.map dictToBlock } := by
  induction bs generalizing st with
  | nil => simp
  | cons b t ih =>
    simp only [List.map_cons, List.foldl_cons]
    rw [ih]
    show ({ st with blocks := (st.blocks ++ [dictToBlock b]) ++ List.map dictToBlock t } : DBState)
      = { st with blocks := st.blocks ++ dictToBlock b :: List.map dictToBlock t }
    rw [List.append_assoc, List.singleton_append]

theorem foldl_addContainers (cs : List ContainerDict) (st : DBState) :
    (cs.map ImportStep.addContainer).foldl (fun s p => applyStep p s) st
      = { st with containers := st.containers ++ cs.map dictToContainer } := by
  induction cs generalizing st with
  | nil => simp
  | cons c t ih =>
    simp only [List.map_cons, List.foldl_cons]
    rw [ih]
    show ({ st with containers := (st.containers ++ [dictToContainer c]) ++ List.map dictToContainer t } : DBState)
      = { st with containers := st.containers ++ dictToContainer c :: List.map dictToContainer t }
    rw [List.append_assoc, List.singleton_append]

theorem foldl_addSubnets (ss : List SubnetDict) (st : DBState) :
    (ss.map ImportStep.addSubnet).foldl (fun s p => applyStep p s) st
      = { st with subnets := st.subnets ++ ss.map dictToSubnet } := by
  induction ss generalizing st with
  | nil => simp
  | cons s t ih =>
    simp only [List.map_cons, List.foldl_cons]
    rw [ih]
    show ({ st with subnets := (st.subnets ++ [dictToSubnet s]) ++ List.map dictToSubnet t } : DBState)
      = { st with subnets := st.subnets ++ dictToSubnet s :: List.map dictToSubnet t }
    rw [List.append_assoc, List.singleton_append]

/-- Folding the full operation sequence of `import_data` over any starting
pending state yields exactly the supplied rows. -/
theorem foldl_importSteps (data : ExportData) (st : DBState) :
    (importSteps data).foldl (fun s p => applyStep p s) st = importedState data := by
  unfold importSteps
  rw [List.foldl_append, List.foldl_append, List.foldl_append]
  rw [show ([ImportStep.delSubnets, ImportStep.delContainers,
    ImportStep.delBlocks].foldl (fun s p => applyStep p s) st)
      = ({ blocks := [], containers := [], subnets := [] } : DBState) from rfl]
  rw [foldl_addBlocks, foldl_addContainers, foldl_addSubnets]
  rfl

/-- C3: `import_data` is atomic.  Either it returns `True` after replacing
the stored state by exactly the supplied rows, ids included — which is what
happens when no step fails — or some operation of the delete-then-repopulate
sequence (the final commit included) raises, and it returns `False` with the
stored state exactly the pre-import state. -/
theorem c3_import_atomic (st : DBState) (data : ExportData) (failAt : Option Nat) :
    (import_data st data failAt = (true, importedState data) ∨
     import_data st data failAt = (false, st)) ∧
    import_data st data none = (true, importedState data) ∧
    (importedState data).blocks.map NetworkBlock.id = data.blocks.map BlockDict.id ∧
    (importedState data).containers.map NetworkContainer.id
      = data.containers.map ContainerDict.id ∧
    (importedState data).subnets.map Subnet.id = data.subnets.map SubnetDict.id := by
  refine ⟨?_, ?_, ?_, ?_, ?_⟩
  · rcases runImportSteps_cases (importSteps data) { committed := st, pending := st } failAt
      with h | h
    · left
      simp only [import_data, h, foldl_importSteps]
    · right
      simp only [import_data, h]
  · simp only [import_data, runImportSteps_none, foldl_importSteps]
  · simp only [importedState, List.map_map]
    rfl
  · simp only [importedState, List.map_map]
    rfl
  · simp only [importedState, List.map_map]
    rfl

theorem notExcluded_iff (ex : Option Nat) (i : Nat) :
    notExcluded ex i = true ↔ (ex = none ∨ ex ≠ some i) := by
  cases ex with
  | none => simp [notExcluded]
  | some e =>
    simp only [notExcluded, bne_iff_ne]
    constructor
    · intro h
      refine Or.inr (fun hc => h ?_)
      exact (Option.some.inj hc).symm
    · rintro (h | h)
      · exact absurd h (Option.some_ne_none e)
      · exact fun hie => h (congrArg some hie.symm)

/-- The overlap scan reports a conflict exactly when some subnet of the
block, the excluded id set aside, has a strictly parseable cidr overlapping
the candidate network. -/
theorem overlapScan_true_iff (n : IPv4Net) (bid : Nat) (ex : Option Nat)
    (l : List Subnet) :
    (overlapScan n bid ex l).1 = true ↔
      ∃ s ∈ l, s.block_id = bid ∧ (ex = none ∨ ex ≠ some s.id) ∧
        ∃ en, ipNetwork s.cidr true = some en ∧ overlaps n en = true := by
  induction l with
  | nil =>
    rw [show overlapScan n bid ex [] = (false, none) from rfl]
    simp
  | cons s t ih =>
    unfold overlapScan
    split
    · rename_i hguard
      rw [Bool.and_eq_true, beq_iff_eq] at hguard
      split
      · rename_i en hp
        split
        · rename_i hov
          simp only [List.mem_cons]
          constructor
          · intro _
            exact ⟨s, Or.inl rfl, hguard.1, (notExcluded_iff ex s.id).mp hguard.2, en, hp, hov⟩
          · intro _
            trivial
        · rename_i hov
          rw [ih]
          simp only [List.mem_cons]
          constructor
          · rintro ⟨x, hx, rest⟩
            exact ⟨x, Or.inr hx, rest⟩
          · rintro ⟨x, hxmem, hbid, hex, en2, hp2, hov2⟩
            cases hxmem with
            | inl hxeq =>
              subst hxeq
              rw [hp] at hp2
              cases hp2
              exact absurd hov2 hov
            | inr hx => exact ⟨x, hx, hbid, hex, en2, hp2, hov2⟩
      · rename_i hp
        rw [ih]
        simp only [List.mem_cons]
        constructor
        · rintro ⟨x, hx, rest⟩
          exact ⟨x, Or.inr hx, rest⟩
        · rintro ⟨x, hxmem, hbid, hex, en2, hp2, hov2⟩
          cases hxmem with
          | inl hxeq =>
            subst hxeq
            rw [hp] at hp2
            cases hp2
          | inr hx => exact ⟨x, hx, hbid, hex, en2, hp2, hov2⟩
    · rename_i hguard
      rw [ih]
      simp only [List.mem_cons]
      constructor
      · rintro ⟨x, hx, rest⟩
        exact ⟨x, Or.inr hx, rest⟩
      · rintro ⟨x, hxmem, hbid, hex, rest⟩
        cases hxmem with
        | inl hxeq =>
          subst hxeq
          exact absurd (by simp [hbid, (notExcluded_iff ex x.id).mpr hex]) hguard
        | inr hx => exact ⟨x, hx, hbid, hex, rest⟩

/-- C1 (as corrected): for a candidate CIDR that parses in strict mode, the
overlap check flags a conflict exactly when some subnet of the same block
(the excluded id set aside on update) has a strictly parseable cidr whose
range overlaps the candidate — so a subnet with the identical CIDR sitting
in a different block never triggers it — and on the add path a flagged
overlap makes the conflict gate reject.  (`validate_cidr_format` parses
with strict=False, so it also accepts host-bits-set candidates, which the
checker treats as unparseable and never flags; see the counterexample.) -/
theorem c1_overlap_check_block_scoped (subnets : List Subnet) (block_id : Nat)
    (exclude_id : Option Nat) (cidr : String) (vlan : Option Int) (n : IPv4Net)
    (hparse : ipNetwork cidr true = some n) :
    ∃ r, check_overlapping_cidr_in_block cidr block_id exclude_id (.ok subnets) = .ok r ∧
      (r.1 = true ↔ ∃ s ∈ subnets, s.block_id = block_id ∧
        (exclude_id = none ∨ exclude_id ≠ some s.id) ∧
        ∃ en, ipNetwork s.cidr true = some en ∧ overlaps n en = true) ∧
      ((∀ s ∈ subnets, s.block_id ≠ block_id) → r.1 = false) ∧
      (exclude_id = none → r.1 = true →
        check_subnet_conflicts cidr vlan block_id (.ok subnets) = .ok true) := by
  refine ⟨overlapScan n block_id exclude_id subnets, ?_, ?_, ?_, ?_⟩
  · unfold check_overlapping_cidr_in_block
    rw [hparse]
  · exact overlapScan_true_iff n block_id exclude_id subnets
  · intro hall
    rw [Bool.eq_false_iff]
    intro htrue
    obtain ⟨s, hs, hbid, _⟩ := (overlapScan_true_iff n block_id exclude_id subnets).mp htrue
    exact hall s hs hbid
  · intro hexn htrue
    subst hexn
    unfold check_subnet_conflicts
    cases vlan with
    | none =>
      show Except.map (fun x : Bool × Option Subnet => x.1)
        (check_overlapping_cidr_in_block cidr block_id none (Except.ok subnets)) = Except.ok true
      unfold check_overlapping_cidr_in_block
      rw [hparse]
      exact congrArg Except.ok htrue
    | some v =>
      by_cases hcond : ((v != 0) &&
          (check_duplicate_vlan_in_block (some v) block_id none (Except.ok subnets)).1) = true
      · show (if ((v != 0) &&
            (check_duplicate_vlan_in_block (some v) block_id none (Except.ok subnets)).1) = true
            then (Except.ok true : Except PyErr Bool)
            else Except.map (fun x : Bool × Option Subnet => x.1)
              (check_overlapping_cidr_in_block cidr block_id none (Except.ok subnets)))
          = Except.ok true
        rw [if_pos hcond]
      · show (if ((v != 0) &&
            (check_duplicate_vlan_in_block (some v) block_id none (Except.ok subnets)).1) = true
            then (Except.ok true : Except PyErr Bool)
            else Except.map (fun x : Bool × Option Subnet => x.1)
              (check_overlapping_cidr_in_block cidr block_id none (Except.ok subnets)))
          = Except.ok true
        rw [if_neg hcond]
        unfold check_overlapping_cidr_in_block
        rw [hparse]
        exact congrArg Except.ok htrue

/-- Witness for C1: candidate `10.0.1.0/25` against a block holding
`10.0.1.0/24` conflicts, and an identical CIDR in another block alone never
triggers the check. -/
theorem c1_overlap_check_block_scoped_witness :
    ipNetwork "10.0.1.0/25" true = some ⟨167772416, 25⟩ ∧
    (∃ r, check_overlapping_cidr_in_block "10.0.1.0/25" 1 none
        (.ok [⟨7, 1, "web", some 100, "10.0.1.0/24"⟩]) = .ok r ∧
      (r.1 = true ↔ ∃ s ∈ [(⟨7, 1, "web", some 100, "10.0.1.0/24"⟩ : Subnet)],
        s.block_id = 1 ∧ ((none : Option Nat) = none ∨ (none : Option Nat) ≠ some s.id) ∧
        ∃ en, ipNetwork s.cidr true = some en ∧ overlaps ⟨167772416, 25⟩ en = true) ∧
      ((∀ s ∈ [(⟨7, 1, "web", some 100, "10.0.1.0/24"⟩ : Subnet)], s.block_id ≠ 1) →
        r.1 = false) ∧
      ((none : Option Nat) = none → r.1 = true → check_subnet_conflicts "10.0.1.0/25" none 1
        (.ok [⟨7, 1, "web", some 100, "10.0.1.0/24"⟩]) = .ok true)) :=
  ⟨by decide, c1_overlap_check_block_scoped [⟨7, 1, "web", some 100, "10.0.1.0/24"⟩] 1 none
    "10.0.1.0/25" none ⟨167772416, 25⟩ (by decide)⟩

/-- Counterexample to C1 as stated: the candidate `10.0.0.1/24` passes
`validate_cidr_format` (strict=False), its range is the range of
`10.0.0.0/24` and overlaps the existing same-block subnet `10.0.0.0/24`,
yet the overlap check reports no conflict and the conflict gate lets the
add proceed, because the checker parses the candidate in strict mode and
swallows the ValueError. -/
theorem c1_host_bits_counterexample :
    validate_cidr_format "10.0.0.1/24" = (true, "") ∧
    ipNetwork "10.0.0.1/24" false = some ⟨167772160, 24⟩ ∧
    ipNetwork "10.0.0.0/24" false = some ⟨167772160, 24⟩ ∧
    overlaps ⟨167772160, 24⟩ ⟨167772160, 24⟩ = true ∧
    check_overlapping_cidr_in_block "10.0.0.1/24" 1 none
      (.ok [⟨1, 1, "existing", none, "10.0.0.0/24"⟩]) = .ok (false, none) ∧
    check_subnet_conflicts "10.0.0.1/24" none 1
      (.ok [⟨1, 1, "existing", none, "10.0.0.0/24"⟩]) = .ok false :=
  ⟨rfl, rfl, rfl, rfl, rfl, rfl⟩


/-- C10 (as corrected): when the persistence read raises,
`check_duplicate_block_name` and `check_duplicate_vlan_in_block` catch any
exception and report no conflict, but `check_overlapping_cidr_in_block` and
`check_overlapping_container_networks` catch only ValueError: any other
exception (a persistence failure is not a ValueError) propagates out of
them instead of being reported as `(False, None)`. -/
theorem c10_exception_handling (name : String) (exb : Option Nat) (vlan : Option Int)
    (cidr : String) (block_id : Nat) (exclude_id : Option Nat) (e : PyErr) :
    check_duplicate_block_name name exb (.error e) = (false, none) ∧
    check_duplicate_vlan_in_block vlan block_id exclude_id (.error e) = (false, none) ∧
    (ipNetwork cidr true = none →
      check_overlapping_cidr_in_block cidr block_id exclude_id (.error e) = .ok (false, none)) ∧
    (∀ n, ipNetwork cidr true = some n →
      check_overlapping_cidr_in_block cidr block_id exclude_id (.error .valueError)
        = .ok (false, none) ∧
      (e ≠ .valueError →
        check_overlapping_cidr_in_block cidr block_id exclude_id (.error e) = .error e)) ∧
    (∀ n, ipNetwork cidr true = some n →
      check_overlapping_container_networks cidr block_id exclude_id (.error .valueError)
        = .ok (false, none) ∧
      (e ≠ .valueError →
        check_overlapping_container_networks cidr block_id exclude_id (.error e)
          = .error e)) := by
  refine ⟨rfl, ?_, ?_, ?_, ?_⟩
  · cases vlan <;> rfl
  · intro h
    unfold check_overlapping_cidr_in_block
    rw [h]
  · intro n h
    unfold check_overlapping_cidr_in_block
    rw [h]
    refine ⟨rfl, ?_⟩
    intro hne
    cases e with
    | valueError => exact absurd rfl hne
    | otherError => rfl
  · intro n h
    unfold check_overlapping_container_networks
    rw [h]
    refine ⟨rfl, ?_⟩
    intro hne
    cases e with
    | valueError => exact absurd rfl hne
    | otherError => rfl

/-- Witness for C10 at concrete inputs: the two duplicate checkers swallow a
non-ValueError, the overlap checkers swallow a ValueError but propagate any
other exception. -/
theorem c10_exception_handling_witness :
    check_duplicate_block_name "Production" none (.error .otherError) = (false, none) ∧
    check_duplicate_vlan_in_block (some 100) 1 none (.error .otherError) = (false, none) ∧
    check_overlapping_cidr_in_block "10.0.0.0/24" 1 none (.error .valueError)
      = .ok (false, none) ∧
    check_overlapping_cidr_in_block "10.0.0.0/24" 1 none (.error .otherError)
      = .error .otherError ∧
    check_overlapping_container_networks "10.0.0.0/24" 1 none (.error .otherError)
      = .error .otherError := by
  obtain ⟨h1, h2, _, h4, h5⟩ :=
    c10_exception_handling "Production" none (some 100) "10.0.0.0/24" 1 none .otherError
  obtain ⟨h4a, h4b⟩ := h4 ⟨167772160, 24⟩ (by decide)
  obtain ⟨_, h5b⟩ := h5 ⟨167772160, 24⟩ (by decide)
  exact ⟨h1, h2, h4a, h4b (by decide), h5b (by decide)⟩

/-- Counterexample to C10 as stated: a non-ValueError raised by the
persistence read inside `check_overlapping_cidr_in_block` (or the container
variant) is not caught: the checkers do not return `(False, None)` there. -/
theorem c10_overlap_checker_propagates :
    check_overlapping_cidr_in_block "10.0.0.0/24" 1 none (.error .otherError)
      ≠ .ok (false, none) ∧
    check_overlapping_container_networks "10.0.0.0/24" 1 none (.error .otherError)
      ≠ .ok (false, none) ∧
    check_overlapping_cidr_in_block "10.0.0.0/24" 1 none (.error .otherError)
      = .error .otherError :=
  ⟨by decide, by decide, rfl⟩

/-- C5 (as corrected): in the per-block hierarchy, every container whose base
network parses appears with exactly the subnets contained in it, so a subnet
contained in several containers of the block is listed under every one of
them — it is not assigned to only the first in iteration order. -/
theorem c5_hierarchy_all_containers (block_containers : List ContainerDict)
    (block_subnets : List SubnetDict) (c : ContainerDict) (cn : IPv4Net)
    (hmem : c ∈ block_containers) (hparse : ipNetwork c.base_network false = some cn) :
    HierEntry.containerEntry c (containedSubnets cn block_subnets) cn
        ∈ hierarchicalNetworks block_containers block_subnets ∧
    ∀ sd ∈ block_subnets, ∀ sn, ipNetwork sd.cidr false = some sn →
      subnetOf sn cn = true → sd ∈ containedSubnets cn block_subnets := by
  constructor
  · unfold hierarchicalNetworks
    rw [List.mem_insertionSort, List.mem_append]
    left
    rw [List.mem_filterMap]
    exact ⟨c, hmem, by rw [hparse]; rfl⟩
  · intro sd hsd sn hsn hsub
    unfold containedSubnets
    rw [List.mem_filter]
    refine ⟨hsd, ?_⟩
    rw [hsn]
    exact hsub

/-- Witness for C5 on a container `10.0.0.0/16` of one block containing the
subnet `10.0.1.0/24`. -/
theorem c5_hierarchy_all_containers_witness :
    ((⟨1, 1, "seg", "10.0.0.0/16", 1, some "B"⟩ : ContainerDict)
        ∈ [(⟨1, 1, "seg", "10.0.0.0/16", 1, some "B"⟩ : ContainerDict)] ∧
      ipNetwork "10.0.0.0/16" false = some ⟨167772160, 16⟩) ∧
    (HierEntry.containerEntry ⟨1, 1, "seg", "10.0.0.0/16", 1, some "B"⟩
        (containedSubnets ⟨167772160, 16⟩ [⟨1, 1, "web", none, "10.0.1.0/24", some "B"⟩])
        ⟨167772160, 16⟩
      ∈ hierarchicalNetworks [⟨1, 1, "seg", "10.0.0.0/16", 1, some "B"⟩]
          [⟨1, 1, "web", none, "10.0.1.0/24", some "B"⟩] ∧
     ∀ sd ∈ [(⟨1, 1, "web", none, "10.0.1.0/24", some "B"⟩ : SubnetDict)],
       ∀ sn, ipNetwork sd.cidr false = some sn → subnetOf sn ⟨167772160, 16⟩ = true →
         sd ∈ containedSubnets ⟨167772160, 16⟩
           [⟨1, 1, "web", none, "10.0.1.0/24", some "B"⟩]) :=
  ⟨⟨by decide, by decide⟩,
    c5_hierarchy_all_containers [⟨1, 1, "seg", "10.0.0.0/16", 1, some "B"⟩]
      [⟨1, 1, "web", none, "10.0.1.0/24", some "B"⟩]
      ⟨1, 1, "seg", "10.0.0.0/16", 1, some "B"⟩ ⟨167772160, 16⟩
      (by decide) (by decide)⟩

/-- Counterexample to C5 as stated: with the overlapping containers
`10.0.0.0/8` and `10.0.0.0/16` in one block (such a state can exist, for
instance through `import_data`, which performs no conflict checks), the
subnet `10.0.0.0/24` is listed under both container entries of the produced
tree, not under exactly one. -/
theorem c5_subnet_duplicated_counterexample :
    ((hierarchicalNetworks
        [⟨1, 1, "outer", "10.0.0.0/8", 1, some "B"⟩, ⟨2, 1, "inner", "10.0.0.0/16", 2, some "B"⟩]
        [⟨1, 1, "s", none, "10.0.0.0/24", some "B"⟩]).filter (fun e =>
          match e with
          | .containerEntry _ subs _ =>
            decide ((⟨1, 1, "s", none, "10.0.0.0/24", some "B"⟩ : SubnetDict) ∈ subs)
          | _ => false)).length = 2 := by
  decide

end Outlan
